import Mathlib

/-!
Shallow embedding of the GPU draw-submission layer of clutter-clone
(src/clutter/cogl/cogl/cogl-vertex-attribute.c), together with theorems
settling the specification claims about it.

Machine integers of the C code are modelled with Nat/Int; reference-counted
object identity is modelled with numeric object ids and explicit heaps;
GL side effects are modelled as an explicit call trace.
-/

namespace CoglVertexAttr

/-- Semantic attribute name ids (CoglVertexAttributeNameID in the source). -/
inductive CoglVertexAttributeNameID where
  | positionArray
  | colorArray
  | textureCoordArray
  | normalArray
  | customArray
deriving DecidableEq, Repr

/-- The out-parameters filled in by `validate_cogl_attribute`:
name id, normalized flag and texture unit. -/
structure ValidatedName where
  name_id : CoglVertexAttributeNameID
  normalized : Bool
  texture_unit : Nat
deriving DecidableEq, Repr

/-- Modelled from libc: the value a `sscanf` `%u` conversion yields on this
character list — a maximal run of leading decimal digits; `none` when no digit
is present (conversion count 0, so the source's `!= 1` check fails). -/
def sscanf_u (cs : List Char) : Option Nat :=
  let ds := cs.takeWhile Char.isDigit
  if ds = [] then none
  else some (ds.foldl (fun acc c => acc * 10 + (c.toNat - 48)) 0)

/-- `validate_cogl_attribute` (cogl-vertex-attribute.c:163-229): parses a
`cogl_`-prefixed attribute name (the function itself skips the 5-character
prefix) and checks the component-count contract of the declared role.
`none` models returning FALSE. Note that only the `normal` branch overrides
the `*normalized = FALSE` default; the `color_in` branch of this source does
not set it. -/
def validate_cogl_attribute (name : List Char) (n_components : Int) :
    Option ValidatedName :=
  let rest := name.drop 5
  if rest = "position_in".data then
    if n_components = 1 then none
    else some ⟨.positionArray, false, 0⟩
  else if rest = "color_in".data then
    if n_components ≠ 3 ∧ n_components ≠ 4 then none
    else some ⟨.colorArray, false, 0⟩
  else if rest = "tex_coord_in".data then
    some ⟨.textureCoordArray, false, 0⟩
  else if "tex_coord".data.isPrefixOf rest then
    match sscanf_u (rest.drop 9) with
    | some unit => some ⟨.textureCoordArray, false, unit⟩
    | none => none
  else if rest = "normal".data then
    if n_components ≠ 3 then none
    else some ⟨.normalArray, true, 0⟩
  else none

/-- CoglVertexAttribute: the backing vertex array is an object id. -/
structure CoglVertexAttribute where
  array : Nat
  name : String
  stride : Nat
  offset : Nat
  n_components : Int
  type : Nat
  name_id : CoglVertexAttributeNameID
  normalized : Bool
  texture_unit : Nat
  immutable_ref : Nat
deriving DecidableEq, Repr

/-- `cogl_vertex_attribute_new` (cogl-vertex-attribute.c:231-279): reserved
`cogl_`-prefixed names go through `validate_cogl_attribute` (failure frees the
attribute and returns NULL, modelled by `none`); any other name becomes a
CUSTOM attribute with texture unit 0 and `normalized = FALSE`. The `gl_`
branch of the source is compiled out (`#if 0`). -/
def cogl_vertex_attribute_new (array : Nat) (name : String) (stride offset : Nat)
    (n_components : Int) (type : Nat) : Option CoglVertexAttribute :=
  if "cogl_".data.isPrefixOf name.data then
    match validate_cogl_attribute name.data n_components with
    | some v =>
      some { array := array, name := name, stride := stride, offset := offset,
             n_components := n_components, type := type,
             name_id := v.name_id, normalized := v.normalized,
             texture_unit := v.texture_unit, immutable_ref := 0 }
    | none => none
  else
    some { array := array, name := name, stride := stride, offset := offset,
           n_components := n_components, type := type,
           name_id := .customArray, normalized := false,
           texture_unit := 0, immutable_ref := 0 }

example : (cogl_vertex_attribute_new 0 "cogl_color_in" 0 0 3 0).map
    (fun a => a.normalized) = some false := by decide

example : (cogl_vertex_attribute_new 0 "cogl_normal" 0 0 3 0).map
    (fun a => a.normalized) = some true := by decide

example : (cogl_vertex_attribute_new 0 "cogl_position_in" 0 0 1 0) = none := by decide

example : (cogl_vertex_attribute_new 0 "cogl_tex_coord7_in" 0 0 2 0).map
    (fun a => a.texture_unit) = some 7 := by decide

example : (cogl_vertex_attribute_new 0 "my_custom" 0 0 2 0).map
    (fun a => a.name_id) = some .customArray := by decide

/-! ## State flush engine (`enable_gl_state` / `disable_gl_state`) -/

/-- Primitive topologies (CoglVerticesMode, plus the journal's GL_QUADS). -/
inductive CoglVerticesMode where
  | points
  | lines
  | lineLoop
  | lineStrip
  | triangles
  | triangleStrip
  | triangleFan
  | quads
deriving DecidableEq, Repr

/-- One GL call issued by the flush engine or the draw executor, as recorded
in the call trace. Pointer arguments are byte addresses/offsets (Nat). -/
inductive GLCall where
  | bindBuffer (buf : Nat)
  | unbindBuffer (buf : Nat)
  | colorPointer (n : Int) (type stride offset : Nat)
  | enableClientStateNormalArray
  | normalPointer (type stride offset : Nat)
  | clientActiveTexture (unit : Nat)
  | enableClientStateTexCoordArray
  | texCoordPointer (n : Int) (type stride offset : Nat)
  | vertexPointer (n : Int) (type stride offset : Nat)
  | enableVertexAttribArray (index : Nat)
  | vertexAttribPointer (index : Nat) (n : Int) (type : Nat)
      (normalized : Bool) (stride offset : Nat)
  | disableClientStateNormalArray
  | disableVertexAttribArray (index : Nat)
  | drawArrays (mode : CoglVerticesMode) (first n : Nat)
  | drawElements (mode : CoglVerticesMode) (n : Nat) (glType : Nat) (ptr : Nat)
deriving DecidableEq, Repr

/-- Modelled from the spec (§3, §6): the pipeline collaborator
(cogl-pipeline.c is not under src/). A pipeline is an object id; the heap
records each pipeline's real-blend-enabled flag and the next fresh object id.
`copy() -> Pipeline` produces a new object with the same state. -/
structure PipelineHeap where
  blend : Nat → Bool
  next : Nat

/-- Modelled from the spec (§6): `cogl_pipeline_copy` allocates a fresh
pipeline object carrying the same state as the original. -/
def cogl_pipeline_copy (h : PipelineHeap) (src : Nat) : Nat × PipelineHeap :=
  (h.next, { blend := Function.update h.blend h.next (h.blend src),
             next := h.next + 1 })

/-- Modelled from the spec (§6): `set_blend_enabled` on a pipeline object. -/
def cogl_pipeline_set_blend_enabled (h : PipelineHeap) (p : Nat) (v : Bool) :
    PipelineHeap :=
  { h with blend := Function.update h.blend p v }

/-- Enable-flag bits (COGL_ENABLE_* from cogl-internal.h, values modelled as
distinct bits; no claim depends on the numeric values). -/
def COGL_ENABLE_COLOR_ARRAY : Nat := 1
def COGL_ENABLE_VERTEX_ARRAY : Nat := 2
def COGL_ENABLE_BACKFACE_CULLING : Nat := 4

/-- The local state threaded through `enable_gl_state`
(cogl-vertex-attribute.c:426-590): the current `source` pipeline, the
lazily-created derived `copy`, the running generic attribute index, the
`skip_gl_color` flag, the accumulated enable flags, the context's
`temp_bitmask` of used texture units, and the GL call trace. -/
structure EnableAcc where
  heap : PipelineHeap
  source : Nat
  copy : Option Nat
  genericIndex : Nat
  skipGlColor : Bool
  enableFlags : Nat
  tempBitmask : Nat
  trace : List GLCall

/-- One iteration of the attribute loop of `enable_gl_state`
(cogl-vertex-attribute.c:445-521): bind the attribute's buffer, dispatch on
`name_id`, unbind. The COLOR branch lazily derives a blending-enabled
pipeline copy when the current source has real blending disabled. The CUSTOM
branch reproduces the source exactly: `glEnableVertexAttribArray
(generic_index++)` followed by `glVertexAttribPointer (generic_index, ...)`,
so the pointer call sees the already-incremented index. -/
def process_attribute (acc : EnableAcc) (a : CoglVertexAttribute) : EnableAcc :=
  let acc := { acc with trace := acc.trace ++ [GLCall.bindBuffer a.array] }
  let acc :=
    match a.name_id with
    | .colorArray =>
      let acc := { acc with
        enableFlags := acc.enableFlags ||| COGL_ENABLE_COLOR_ARRAY,
        trace := acc.trace ++ [GLCall.colorPointer a.n_components a.type a.stride a.offset] }
      let acc :=
        if acc.heap.blend acc.source = false then
          let (copyId, h) := cogl_pipeline_copy acc.heap acc.source
          let h := cogl_pipeline_set_blend_enabled h copyId true
          { acc with heap := h, copy := some copyId, source := copyId }
        else acc
      { acc with skipGlColor := true }
    | .normalArray =>
      { acc with trace := acc.trace ++
          [GLCall.enableClientStateNormalArray,
           GLCall.normalPointer a.type a.stride a.offset] }
    | .textureCoordArray =>
      { acc with
        trace := acc.trace ++
          [GLCall.clientActiveTexture a.texture_unit,
           GLCall.enableClientStateTexCoordArray,
           GLCall.texCoordPointer a.n_components a.type a.stride a.offset],
        tempBitmask := acc.tempBitmask ||| (1 <<< a.texture_unit) }
    | .positionArray =>
      { acc with
        enableFlags := acc.enableFlags ||| COGL_ENABLE_VERTEX_ARRAY,
        trace := acc.trace ++
          [GLCall.vertexPointer a.n_components a.type a.stride a.offset] }
    | .customArray =>
      { acc with
        trace := acc.trace ++
          [GLCall.enableVertexAttribArray acc.genericIndex,
           GLCall.vertexAttribPointer (acc.genericIndex + 1) a.n_components a.type
             a.normalized a.stride a.offset],
        genericIndex := acc.genericIndex + 1 }
  { acc with trace := acc.trace ++ [GLCall.unbindBuffer a.array] }

/-- The override phase of `enable_gl_state`
(cogl-vertex-attribute.c:526-568): when validator-driven override flags are
pending, derive a pipeline copy if none exists yet and apply the overrides
to it (`_cogl_pipeline_apply_overrides` touches no state tracked by this
model, in particular not the blend flag). -/
def apply_overrides_phase (optionsFlags : Nat) (acc : EnableAcc) : EnableAcc :=
  if optionsFlags ≠ 0 then
    match acc.copy with
    | none =>
      let ch := cogl_pipeline_copy acc.heap acc.source
      { acc with heap := ch.2, copy := some ch.1, source := ch.1 }
    | some _ => acc
  else acc

/-- The legacy-state phase of `enable_gl_state`
(cogl-vertex-attribute.c:570-579): when the context's deprecated global
state is set, derive a pipeline copy if none exists yet and apply the
legacy state to it (again blend-preserving). -/
def apply_legacy_phase (legacyStateSet : Bool) (acc : EnableAcc) : EnableAcc :=
  if legacyStateSet then
    match acc.copy with
    | none =>
      let ch := cogl_pipeline_copy acc.heap acc.source
      { acc with heap := ch.2, copy := some ch.1, source := ch.1 }
    | some _ => acc
  else acc

/-- `enable_gl_state` (cogl-vertex-attribute.c:426-590). Inputs beyond the
attribute set: the pending validator-driven override flags
(`state->options.flags`), the context's `legacy_state_set` flag, the
pipeline heap and the currently active source pipeline: the per-attribute
loop followed by the override phase and the legacy phase. -/
def enable_gl_state (attributes : List CoglVertexAttribute)
    (optionsFlags : Nat) (legacyStateSet : Bool)
    (h0 : PipelineHeap) (source0 : Nat) : EnableAcc :=
  let acc : EnableAcc :=
    { heap := h0, source := source0, copy := none, genericIndex := 0,
      skipGlColor := false, enableFlags := 0, tempBitmask := 0, trace := [] }
  apply_legacy_phase legacyStateSet
    (apply_overrides_phase optionsFlags (attributes.foldl process_attribute acc))

/-- `disable_gl_state` (cogl-vertex-attribute.c:594-641): the per-attribute
teardown trace; only NORMAL and CUSTOM attributes issue calls, and CUSTOM
attributes are disabled at sequentially increasing generic indices
(`glDisableVertexAttribArray (generic_index++)`). -/
def disable_gl_state (attributes : List CoglVertexAttribute) : List GLCall :=
  (attributes.foldl
    (fun (st : Nat × List GLCall) a =>
      match a.name_id with
      | .colorArray => st
      | .normalArray => (st.1, st.2 ++ [GLCall.disableClientStateNormalArray])
      | .textureCoordArray => st
      | .positionArray => st
      | .customArray => (st.1 + 1, st.2 ++ [GLCall.disableVertexAttribArray st.1])
      )
    (0, [])).2

/-! ## Layer validator (`validate_layer_cb`) -/

/-- Modelled from the spec (§6): the texture collaborator's
`supports_hardware_repeat` query (`_cogl_texture_can_hardware_repeat`,
cogl-texture.c is not under src/). The atlas-migration and mipmap
delegations of the source have no observable effect on this model. -/
structure LayerTexture where
  canHardwareRepeat : Bool
deriving DecidableEq, Repr

/-- COGL_PIPELINE_FLUSH_FALLBACK_MASK (cogl-pipeline-private.h, not under
src/); modelled as a fixed bit — no claim depends on the numeric value. -/
def COGL_PIPELINE_FLUSH_FALLBACK_MASK : Nat := 1

/-- ValidateLayerState (cogl-vertex-attribute.c:365-370). -/
structure ValidateLayerState where
  unit : Nat
  optionsFlags : Nat
  fallbackLayers : Nat
deriving DecidableEq, Repr

/-- `validate_layer_cb` (cogl-vertex-attribute.c:372-424): a layer with no
texture jumps straight to `validated`; a texture that cannot be
hardware-repeated sets the bit `1 << state->unit` in `fallback_layers` and
the fallback-mask flag in `state->options.flags`. `state->unit` is
incremented unconditionally and the callback always returns TRUE. -/
def validate_layer_cb (texture : Option LayerTexture)
    (state : ValidateLayerState) : Bool × ValidateLayerState :=
  match texture with
  | none => (true, { state with unit := state.unit + 1 })
  | some t =>
    if ¬t.canHardwareRepeat then
      (true,
       { unit := state.unit + 1,
         optionsFlags := state.optionsFlags ||| COGL_PIPELINE_FLUSH_FALLBACK_MASK,
         fallbackLayers := state.fallbackLayers ||| (1 <<< state.unit) })
    else (true, { state with unit := state.unit + 1 })

/-- `cogl_pipeline_foreach_layer (pipeline, validate_layer_cb, &state)`:
the validator applied to every layer of the pipeline in layer order (the
callback never stops the iteration since it always returns TRUE). -/
def validate_layers (layers : List (Option LayerTexture))
    (state : ValidateLayerState) : ValidateLayerState :=
  layers.foldl (fun s l => (validate_layer_cb l s).2) state

/-! ## Draw executor -/

/-- CoglIndicesType. -/
inductive CoglIndicesType where
  | unsignedByte
  | unsignedShort
  | unsignedInt
deriving DecidableEq, Repr

/-- `sizeof_index_type` (cogl-vertex-attribute.c:977-990). -/
def sizeof_index_type : CoglIndicesType → Nat
  | .unsignedByte => 1
  | .unsignedShort => 2
  | .unsignedInt => 4

/-- GL index-type enum values used by the glDrawElements call. -/
def GL_UNSIGNED_BYTE : Nat := 0x1401
def GL_UNSIGNED_SHORT : Nat := 0x1403
def GL_UNSIGNED_INT : Nat := 0x1405

/-- The `indices_gl_type` switch of
`_cogl_draw_indexed_vertex_attributes_array_real`
(cogl-vertex-attribute.c:1014-1025). -/
def indices_gl_type : CoglIndicesType → Nat
  | .unsignedByte => GL_UNSIGNED_BYTE
  | .unsignedShort => GL_UNSIGNED_SHORT
  | .unsignedInt => GL_UNSIGNED_INT

/-- CoglIndices, exposing the accessors the spec names in §6: the backing
index array object, its base byte offset, and the index type. -/
structure CoglIndices where
  array : Nat
  offset : Nat
  type : CoglIndicesType
deriving DecidableEq, Repr

/-- `_cogl_draw_vertex_attributes_array_real`
(cogl-vertex-attribute.c:876-895) without the debug-only wireframe overlay
(modelled separately by `draw_wireframe`): enable, one glDrawArrays over
`[first_vertex, first_vertex + n_vertices)`, disable. Returns the final
enable state and the full GL trace. -/
def _cogl_draw_vertex_attributes_array_real (mode : CoglVerticesMode)
    (first_vertex n_vertices : Nat) (attributes : List CoglVertexAttribute)
    (optionsFlags : Nat) (legacyStateSet : Bool)
    (h0 : PipelineHeap) (source0 : Nat) : EnableAcc × List GLCall :=
  let acc := enable_gl_state attributes optionsFlags legacyStateSet h0 source0
  (acc,
   acc.trace ++ [GLCall.drawArrays mode first_vertex n_vertices]
     ++ disable_gl_state attributes)

/-- `_cogl_draw_indexed_vertex_attributes_array_real`
(cogl-vertex-attribute.c:992-1042) without the debug-only wireframe overlay:
enable, bind the index buffer (`base` is the bound base address the buffer
collaborator reports), issue glDrawElements at
`base + array_offset + index_size * first_vertex`, unbind, disable. -/
def _cogl_draw_indexed_vertex_attributes_array_real (mode : CoglVerticesMode)
    (first_vertex n_vertices : Nat) (indices : CoglIndices)
    (attributes : List CoglVertexAttribute)
    (optionsFlags : Nat) (legacyStateSet : Bool)
    (h0 : PipelineHeap) (source0 : Nat) (base : Nat) : EnableAcc × List GLCall :=
  let acc := enable_gl_state attributes optionsFlags legacyStateSet h0 source0
  let array_offset := indices.offset
  let index_size := sizeof_index_type indices.type
  (acc,
   acc.trace ++
     [GLCall.bindBuffer indices.array,
      GLCall.drawElements mode n_vertices (indices_gl_type indices.type)
        (base + array_offset + index_size * first_vertex),
      GLCall.unbindBuffer indices.array]
     ++ disable_gl_state attributes)

/-! ## Wireframe reconstructor (`get_wire_lines` / `draw_wireframe`) -/

/-- The `for (i = ...; i < n; i += 3)` TRIANGLES loop of `get_wire_lines`
(cogl-vertex-attribute.c:730-738), recursing on the remaining vertex count;
each iteration adds the three edges (i,i+1), (i+1,i+2), (i+2,i). -/
def triangles_wire_loop (i : Nat) : Nat → List (Nat × Nat)
  | rem + 3 => (i, i+1) :: (i+1, i+2) :: (i+2, i) :: triangles_wire_loop (i+3) rem
  | _ => []

/-- The `for (i = 3; i < n; i++)` TRIANGLE_FAN loop of `get_wire_lines`
(cogl-vertex-attribute.c:753-759): edges (i-1,i) and (0,i) per vertex. -/
def fan_wire_loop (i : Nat) : Nat → List (Nat × Nat)
  | rem + 1 => (i - 1, i) :: (0, i) :: fan_wire_loop (i+1) rem
  | 0 => []

/-- The `for (i = 3; i < n; i++)` TRIANGLE_STRIP loop of `get_wire_lines`
(cogl-vertex-attribute.c:774-780): edges (i-1,i) and (i-2,i) per vertex. -/
def strip_wire_loop (i : Nat) : Nat → List (Nat × Nat)
  | rem + 1 => (i - 1, i) :: (i - 2, i) :: strip_wire_loop (i+1) rem
  | 0 => []

/-- The `for (i = 0; i < n; i += 4)` GL_QUADS loop of `get_wire_lines`
(cogl-vertex-attribute.c:790-800). -/
def quads_wire_loop (i : Nat) : Nat → List (Nat × Nat)
  | rem + 4 => (i, i+1) :: (i+1, i+2) :: (i+2, i+3) :: (i+3, i) ::
      quads_wire_loop (i+4) rem
  | _ => []

/-- `get_wire_lines` (cogl-vertex-attribute.c:695-809), abstracted to the
list of synthesized line segments as (start, end) vertex-index pairs (each
`add_line` call appends one segment, i.e. two line vertices). A topology
outside the four handled cases, or a vertex count violating the topology's
arity guard, adds no segment (`*n_vertices_out` stays 0). -/
def get_wire_lines (mode : CoglVerticesMode) (n_vertices_in : Nat) :
    List (Nat × Nat) :=
  if mode = .triangles ∧ n_vertices_in % 3 = 0 then
    triangles_wire_loop 0 n_vertices_in
  else if mode = .triangleFan ∧ 3 ≤ n_vertices_in then
    (0, 1) :: (1, 2) :: (0, 2) :: fan_wire_loop 3 (n_vertices_in - 3)
  else if mode = .triangleStrip ∧ 3 ≤ n_vertices_in then
    (0, 1) :: (1, 2) :: (0, 2) :: strip_wire_loop 3 (n_vertices_in - 3)
  else if mode = .quads ∧ n_vertices_in % 4 = 0 then
    quads_wire_loop 0 n_vertices_in
  else []

/-- `draw_wireframe` (cogl-vertex-attribute.c:811-873), abstracted to its
observable draw decision: `none` when no attribute named "cogl_position_in"
is present (early return, no nested draw); otherwise `some k` where `k` is
the `n_line_vertices` count (twice the segment count) passed to the nested
`_cogl_draw_vertex_attributes_array` overlay draw call — the source issues
that nested draw unconditionally once a position attribute is found. -/
def draw_wireframe (mode : CoglVerticesMode) (n_vertices : Nat)
    (attributes : List CoglVertexAttribute) : Option Nat :=
  match attributes.find? (fun a => a.name == "cogl_position_in") with
  | none => none
  | some _ => some (2 * (get_wire_lines mode n_vertices).length)

/-! ## Attribute setters, mid-scene warning, reference counting -/

/-- The process-wide `static gboolean seen` of `warn_about_midscene_changes`
(cogl-vertex-attribute.c:289-299). -/
structure MidsceneWarnState where
  seen : Bool
deriving DecidableEq, Repr

/-- `warn_about_midscene_changes` (cogl-vertex-attribute.c:289-299): emits
the warning (second component 1) and sets `seen` only when `seen` is still
false; otherwise does nothing. -/
def warn_about_midscene_changes (w : MidsceneWarnState) :
    MidsceneWarnState × Nat :=
  if w.seen = false then ({ seen := true }, 1) else (w, 0)

/-- Modelled from the spec (§3, §9): `cogl_object_ref` on the shared
reference-counted vertex-array objects (cogl-object.c is not under src/);
the heap maps object ids to reference counts. -/
def cogl_object_ref (refs : Nat → Nat) (obj : Nat) : Nat → Nat :=
  Function.update refs obj (refs obj + 1)

/-- Modelled from the spec (§3, §9): `cogl_object_unref`. -/
def cogl_object_unref (refs : Nat → Nat) (obj : Nat) : Nat → Nat :=
  Function.update refs obj (refs obj - 1)

/-- Result of `cogl_vertex_attribute_set_normalized`: the mutated attribute,
the warning state, and how many warnings this call emitted. -/
structure SetNormalizedResult where
  attr : CoglVertexAttribute
  warn : MidsceneWarnState
  emitted : Nat

/-- `cogl_vertex_attribute_set_normalized` (cogl-vertex-attribute.c:301-311):
warns (at most once per process) when `immutable_ref` is non-zero, then
applies the mutation unconditionally. -/
def cogl_vertex_attribute_set_normalized (a : CoglVertexAttribute)
    (normalized : Bool) (w : MidsceneWarnState) : SetNormalizedResult :=
  let we :=
    if a.immutable_ref ≠ 0 then warn_about_midscene_changes w else (w, 0)
  { attr := { a with normalized := normalized }, warn := we.1, emitted := we.2 }

/-- Result of `cogl_vertex_attribute_set_array`: the mutated attribute, the
warning state, the warnings emitted, and the updated reference-count heap. -/
structure SetArrayResult where
  attr : CoglVertexAttribute
  warn : MidsceneWarnState
  emitted : Nat
  refs : Nat → Nat

/-- `cogl_vertex_attribute_set_array` (cogl-vertex-attribute.c:321-334):
warns (at most once per process) when `immutable_ref` is non-zero, then
`cogl_object_ref (array)` on the new array, `cogl_object_unref` on the old
one, and finally stores the new array — the mutation is unconditional. -/
def cogl_vertex_attribute_set_array (a : CoglVertexAttribute) (array : Nat)
    (w : MidsceneWarnState) (refs : Nat → Nat) : SetArrayResult :=
  let we :=
    if a.immutable_ref ≠ 0 then warn_about_midscene_changes w else (w, 0)
  let refs := cogl_object_ref refs array
  let refs := cogl_object_unref refs a.array
  { attr := { a with array := array }, warn := we.1, emitted := we.2,
    refs := refs }

/-- A call to one of the two mutating attribute setters. -/
inductive SetterCall where
  | setNormalized (v : Bool)
  | setArray (array : Nat)
deriving DecidableEq, Repr

/-- The state a sequence of setter calls threads: the attribute, the
process-wide warning flag, the reference-count heap, and the total number of
warnings emitted so far. -/
structure SetterEnv where
  attr : CoglVertexAttribute
  warn : MidsceneWarnState
  refs : Nat → Nat
  warningsEmitted : Nat

/-- Apply one setter call to the environment. -/
def apply_setter (env : SetterEnv) : SetterCall → SetterEnv
  | .setNormalized v =>
    let r := cogl_vertex_attribute_set_normalized env.attr v env.warn
    { env with
      attr := r.attr
      warn := r.warn
      warningsEmitted := env.warningsEmitted + r.emitted }
  | .setArray arr =>
    let r := cogl_vertex_attribute_set_array env.attr arr env.warn env.refs
    { attr := r.attr
      warn := r.warn
      refs := r.refs
      warningsEmitted := env.warningsEmitted + r.emitted }

/-- A whole sequence of setter calls, in order. -/
def run_setters (calls : List SetterCall) (env : SetterEnv) : SetterEnv :=
  calls.foldl apply_setter env

/-! ## Evaluation lemmas for attribute construction -/

lemma validate_position_eval (n : Int) :
    validate_cogl_attribute "cogl_position_in".data n =
      if n = 1 then none else some ⟨.positionArray, false, 0⟩ := rfl

lemma validate_color_eval (n : Int) :
    validate_cogl_attribute "cogl_color_in".data n =
      if n ≠ 3 ∧ n ≠ 4 then none else some ⟨.colorArray, false, 0⟩ := rfl

lemma validate_normal_eval (n : Int) :
    validate_cogl_attribute "cogl_normal".data n =
      if n ≠ 3 then none else some ⟨.normalArray, true, 0⟩ := rfl

lemma new_position_eval (array stride offset : Nat) (n : Int) (ty : Nat) :
    cogl_vertex_attribute_new array "cogl_position_in" stride offset n ty =
      if n = 1 then none
      else some { array := array, name := "cogl_position_in", stride := stride,
                  offset := offset, n_components := n, type := ty,
                  name_id := .positionArray, normalized := false,
                  texture_unit := 0, immutable_ref := 0 } := by
  have h0 : cogl_vertex_attribute_new array "cogl_position_in" stride offset n ty =
      (match validate_cogl_attribute "cogl_position_in".data n with
       | some v =>
         some { array := array, name := "cogl_position_in", stride := stride,
                offset := offset, n_components := n, type := ty,
                name_id := v.name_id, normalized := v.normalized,
                texture_unit := v.texture_unit, immutable_ref := 0 }
       | none => none) := rfl
  rw [h0, validate_position_eval]
  by_cases h : n = 1
  · rw [if_pos h, if_pos h]
  · rw [if_neg h, if_neg h]

lemma new_color_eval (array stride offset : Nat) (n : Int) (ty : Nat) :
    cogl_vertex_attribute_new array "cogl_color_in" stride offset n ty =
      if n ≠ 3 ∧ n ≠ 4 then none
      else some { array := array, name := "cogl_color_in", stride := stride,
                  offset := offset, n_components := n, type := ty,
                  name_id := .colorArray, normalized := false,
                  texture_unit := 0, immutable_ref := 0 } := by
  have h0 : cogl_vertex_attribute_new array "cogl_color_in" stride offset n ty =
      (match validate_cogl_attribute "cogl_color_in".data n with
       | some v =>
         some { array := array, name := "cogl_color_in", stride := stride,
                offset := offset, n_components := n, type := ty,
                name_id := v.name_id, normalized := v.normalized,
                texture_unit := v.texture_unit, immutable_ref := 0 }
       | none => none) := rfl
  rw [h0, validate_color_eval]
  by_cases h : n ≠ 3 ∧ n ≠ 4
  · rw [if_pos h, if_pos h]
  · rw [if_neg h, if_neg h]

lemma new_normal_eval (array stride offset : Nat) (n : Int) (ty : Nat) :
    cogl_vertex_attribute_new array "cogl_normal" stride offset n ty =
      if n ≠ 3 then none
      else some { array := array, name := "cogl_normal", stride := stride,
                  offset := offset, n_components := n, type := ty,
                  name_id := .normalArray, normalized := true,
                  texture_unit := 0, immutable_ref := 0 } := by
  have h0 : cogl_vertex_attribute_new array "cogl_normal" stride offset n ty =
      (match validate_cogl_attribute "cogl_normal".data n with
       | some v =>
         some { array := array, name := "cogl_normal", stride := stride,
                offset := offset, n_components := n, type := ty,
                name_id := v.name_id, normalized := v.normalized,
                texture_unit := v.texture_unit, immutable_ref := 0 }
       | none => none) := rfl
  rw [h0, validate_normal_eval]
  by_cases h : n ≠ 3
  · rw [if_pos h, if_pos h]
  · rw [if_neg h, if_neg h]

lemma new_custom_eval (array stride offset : Nat) (name : String) (n : Int)
    (ty : Nat) (h : ("cogl_".data.isPrefixOf name.data) = false) :
    cogl_vertex_attribute_new array name stride offset n ty =
      some { array := array, name := name, stride := stride,
             offset := offset, n_components := n, type := ty,
             name_id := .customArray, normalized := false,
             texture_unit := 0, immutable_ref := 0 } := by
  unfold cogl_vertex_attribute_new
  rw [h]
  rfl

/-! ## Concrete example attributes used by closed theorems -/

/-- A CUSTOM-role attribute (any name without the reserved prefix). -/
def custom_attr_example1 : CoglVertexAttribute :=
  { array := 7, name := "foo", stride := 16, offset := 0, n_components := 3,
    type := 10, name_id := .customArray, normalized := false,
    texture_unit := 0, immutable_ref := 0 }

/-- A second CUSTOM-role attribute. -/
def custom_attr_example2 : CoglVertexAttribute :=
  { array := 8, name := "bar", stride := 20, offset := 4, n_components := 2,
    type := 11, name_id := .customArray, normalized := true,
    texture_unit := 0, immutable_ref := 0 }

/-- A POSITION-role attribute named "cogl_position_in". -/
def position_attr_example : CoglVertexAttribute :=
  { array := 1, name := "cogl_position_in", stride := 12, offset := 0,
    n_components := 3, type := 10, name_id := .positionArray,
    normalized := false, texture_unit := 0, immutable_ref := 0 }

/-- A COLOR-role attribute named "cogl_color_in". -/
def color_attr_example : CoglVertexAttribute :=
  { array := 2, name := "cogl_color_in", stride := 16, offset := 12,
    n_components := 4, type := 10, name_id := .colorArray,
    normalized := false, texture_unit := 0, immutable_ref := 0 }

/-! ## Claim C1 -/

/-- Claim C1, counterexample: the claim says a reserved-prefixed COLOR-role
attribute with 3 components is constructed with `normalized == true` and
that a NORMAL-role attribute defaults to `normalized == false`; on this
source the `color_in` branch of `validate_cogl_attribute` never sets
`*normalized`, while the `normal` branch sets it to TRUE, so a 3-component
"cogl_color_in" attribute has `normalized = false` and a 3-component
"cogl_normal" attribute has `normalized = true`. -/
theorem C1_counterexample :
    (cogl_vertex_attribute_new 0 "cogl_color_in" 0 0 3 0).map
      (fun a => a.normalized) = some false ∧
    (cogl_vertex_attribute_new 0 "cogl_normal" 0 0 3 0).map
      (fun a => a.normalized) = some true := by
  exact ⟨rfl, rfl⟩

/-- Claim C1 (amended): a reserved-prefixed COLOR-role attribute is
constructed successfully iff its component count is 3 or 4, and the
constructed attribute has `normalized == false` — as do POSITION and
TEXTURE_COORD attributes; only NORMAL-role attributes are constructed with
`normalized == true`. -/
theorem C1_normalized_flags (array stride offset : Nat) (n : Int) (ty : Nat) :
    ((cogl_vertex_attribute_new array "cogl_color_in" stride offset n ty).isSome
        = true ↔ (n = 3 ∨ n = 4)) ∧
    (∀ a, cogl_vertex_attribute_new array "cogl_color_in" stride offset n ty
        = some a → a.normalized = false) ∧
    (∀ a, cogl_vertex_attribute_new array "cogl_normal" stride offset n ty
        = some a → a.normalized = true) ∧
    (∀ a, cogl_vertex_attribute_new array "cogl_position_in" stride offset n ty
        = some a → a.normalized = false) ∧
    (∀ a, cogl_vertex_attribute_new array "cogl_tex_coord_in" stride offset n ty
        = some a → a.normalized = false) := by
  refine ⟨?_, ?_, ?_, ?_, ?_⟩
  · rw [new_color_eval]
    by_cases h : n ≠ 3 ∧ n ≠ 4
    · rw [if_pos h]
      simp only [Option.isSome_none, Bool.false_eq_true, false_iff]
      push_neg
      exact ⟨h.1, h.2⟩
    · rw [if_neg h]
      simp only [Option.isSome_some, true_iff]
      push_neg at h
      by_cases h3 : n = 3
      · exact Or.inl h3
      · exact Or.inr (h h3)
  · intro a ha
    rw [new_color_eval] at ha
    by_cases h : n ≠ 3 ∧ n ≠ 4
    · rw [if_pos h] at ha
      exact absurd ha (by simp)
    · rw [if_neg h] at ha
      cases ha
      rfl
  · intro a ha
    rw [new_normal_eval] at ha
    by_cases h : n ≠ 3
    · rw [if_pos h] at ha
      exact absurd ha (by simp)
    · rw [if_neg h] at ha
      cases ha
      rfl
  · intro a ha
    rw [new_position_eval] at ha
    by_cases h : n = 1
    · rw [if_pos h] at ha
      exact absurd ha (by simp)
    · rw [if_neg h] at ha
      cases ha
      rfl
  · intro a ha
    have h0 : cogl_vertex_attribute_new array "cogl_tex_coord_in" stride offset n ty =
        some { array := array, name := "cogl_tex_coord_in", stride := stride,
               offset := offset, n_components := n, type := ty,
               name_id := .textureCoordArray, normalized := false,
               texture_unit := 0, immutable_ref := 0 } := rfl
    rw [h0] at ha
    cases ha
    rfl

/-- Witness for C1_normalized_flags at a concrete input. -/
theorem C1_witness :
    (cogl_vertex_attribute_new 0 "cogl_color_in" 0 0 3 0).isSome = true ∧
    (cogl_vertex_attribute_new 0 "cogl_color_in" 0 0 3 0).map
      (fun a => a.normalized) = some false := by
  have h := C1_normalized_flags 0 0 0 3 0
  refine ⟨h.1.mpr (Or.inl rfl), ?_⟩
  have hsome : cogl_vertex_attribute_new 0 "cogl_color_in" 0 0 3 0 =
      some { array := 0, name := "cogl_color_in", stride := 0, offset := 0,
             n_components := 3, type := 0, name_id := .colorArray,
             normalized := false, texture_unit := 0, immutable_ref := 0 } := rfl
  have hnorm := h.2.1 _ hsome
  rw [hsome]
  simp only [Option.map_some', hnorm]

/-! ## Claim C2 -/

/-- Claim C2: the claim says the k-th CUSTOM attribute has both its enable
call and its pointer-binding call issued against generic index k. The source
writes `glEnableVertexAttribArray (generic_index++)` followed by
`glVertexAttribPointer (generic_index, ...)`, so the pointer call sees the
already-incremented index: for two CUSTOM attributes the trace enables
indices 0 and 1 but binds pointers at indices 1 and 2, while the disable
path disables indices 0 and 1 — the enable/disable pairing confirms the
sequential-from-0 intent and exposes the pointer-call off-by-one as a slip
in the code. This theorem evaluates the model at that failing input. -/
theorem C2_custom_index_off_by_one :
    (enable_gl_state [custom_attr_example1, custom_attr_example2] 0 false
        ⟨fun _ => false, 1⟩ 0).trace =
      [GLCall.bindBuffer 7,
       GLCall.enableVertexAttribArray 0,
       GLCall.vertexAttribPointer 1 3 10 false 16 0,
       GLCall.unbindBuffer 7,
       GLCall.bindBuffer 8,
       GLCall.enableVertexAttribArray 1,
       GLCall.vertexAttribPointer 2 2 11 true 20 4,
       GLCall.unbindBuffer 8] ∧
    disable_gl_state [custom_attr_example1, custom_attr_example2] =
      [GLCall.disableVertexAttribArray 0, GLCall.disableVertexAttribArray 1] := by
  exact ⟨rfl, rfl⟩

/-! ## Claim C7 -/

/-- Claim C7, counterexample: the claim says an arity-violating request
(5-vertex TRIANGLES) "performs no overlay draw"; in the source
`draw_wireframe` finds the position attribute, gets back zero synthesized
segments, and then still issues the nested overlay draw call — with
`n_line_vertices = 0`. In this model `some k` means the nested overlay draw
was issued with `k` line vertices, so the result `some 0` (rather than
`none`, the no-draw outcome taken when no position attribute exists)
refutes the no-overlay-draw part of the claim. -/
theorem C7_counterexample :
    draw_wireframe .triangles 5 [position_attr_example] = some 0 ∧
    draw_wireframe .triangles 5 [] = none := by
  exact ⟨rfl, rfl⟩

/-- Claim C7 (amended): wireframe reconstruction of a 6-vertex TRIANGLES
draw yields exactly 6 line segments, of a 5-vertex TRIANGLE_FAN exactly
2*5-3 = 7 segments; an unsupported topology or an arity-violating vertex
count (a 5-vertex TRIANGLES request) yields zero segments, and the overlay
draw call is still issued — with zero line vertices, drawing nothing. -/
theorem C7_wire_segment_counts :
    (get_wire_lines .triangles 6).length = 6 ∧
    (get_wire_lines .triangleFan 5).length = 7 ∧
    (get_wire_lines .triangles 5).length = 0 ∧
    draw_wireframe .triangles 6 [position_attr_example] = some 12 ∧
    draw_wireframe .triangleFan 5 [position_attr_example] = some 14 ∧
    draw_wireframe .triangles 5 [position_attr_example] = some 0 := by
  exact ⟨rfl, rfl, rfl, rfl, rfl, rfl⟩

/-! ## Claim C8 -/

/-- Claim C8: construction with a reserved-prefixed role name fails exactly
on a component-count contract violation — POSITION rejects 1 component and
accepts 2/3/4; COLOR succeeds iff the count is 3 or 4; NORMAL succeeds iff
the count is exactly 3; and any name without the reserved prefix always
succeeds as a CUSTOM-role attribute. -/
theorem C8_construction_contract (array stride offset : Nat) (ty : Nat) :
    (cogl_vertex_attribute_new array "cogl_position_in" stride offset 1 ty
        = none) ∧
    (∀ n : Int, n = 2 ∨ n = 3 ∨ n = 4 →
      (cogl_vertex_attribute_new array "cogl_position_in" stride offset n ty).isSome
        = true) ∧
    (∀ n : Int,
      (cogl_vertex_attribute_new array "cogl_color_in" stride offset n ty).isSome
        = true ↔ (n = 3 ∨ n = 4)) ∧
    (∀ n : Int,
      (cogl_vertex_attribute_new array "cogl_normal" stride offset n ty).isSome
        = true ↔ n = 3) ∧
    (∀ (name : String) (n : Int), ("cogl_".data.isPrefixOf name.data) = false →
      ∃ a, cogl_vertex_attribute_new array name stride offset n ty = some a ∧
        a.name_id = .customArray) := by
  refine ⟨?_, ?_, ?_, ?_, ?_⟩
  · rw [new_position_eval]
    rfl
  · intro n hn
    rw [new_position_eval]
    have h1 : ¬(n = 1) := by rcases hn with h | h | h <;> omega
    rw [if_neg h1]
    rfl
  · intro n
    rw [new_color_eval]
    by_cases h : n ≠ 3 ∧ n ≠ 4
    · rw [if_pos h]
      simp only [Option.isSome_none, Bool.false_eq_true, false_iff]
      push_neg
      exact ⟨h.1, h.2⟩
    · rw [if_neg h]
      simp only [Option.isSome_some, true_iff]
      push_neg at h
      by_cases h3 : n = 3
      · exact Or.inl h3
      · exact Or.inr (h h3)
  · intro n
    rw [new_normal_eval]
    by_cases h : n ≠ 3
    · rw [if_pos h]
      simp only [Option.isSome_none, Bool.false_eq_true, false_iff]
      exact h
    · rw [if_neg h]
      simp only [Option.isSome_some, true_iff]
      push_neg at h
      exact h
  · intro name n h
    exact ⟨_, new_custom_eval array stride offset name n ty h, rfl⟩

/-- Witness for C8_construction_contract at concrete inputs. -/
theorem C8_witness :
    cogl_vertex_attribute_new 0 "cogl_position_in" 0 0 1 0 = none ∧
    (cogl_vertex_attribute_new 0 "cogl_position_in" 0 0 2 0).isSome = true ∧
    (cogl_vertex_attribute_new 0 "cogl_color_in" 0 0 4 0).isSome = true ∧
    (cogl_vertex_attribute_new 0 "cogl_normal" 0 0 3 0).isSome = true ∧
    (∃ a, cogl_vertex_attribute_new 0 "xyz" 0 0 1 0 = some a ∧
      a.name_id = .customArray) := by
  have h := C8_construction_contract 0 0 0 0
  exact ⟨h.1, h.2.1 2 (Or.inl rfl), (h.2.2.1 4).mpr (Or.inr rfl),
         (h.2.2.2.1 3).mpr rfl, h.2.2.2.2 "xyz" 1 (by rfl)⟩

/-! ## Claim C5 -/

lemma validate_layer_cb_fst (l : Option LayerTexture) (s : ValidateLayerState) :
    (validate_layer_cb l s).1 = true := by
  cases l with
  | none => rfl
  | some t =>
    cases t with
    | mk b => cases b <;> rfl

lemma validate_layer_cb_unit (l : Option LayerTexture) (s : ValidateLayerState) :
    ((validate_layer_cb l s).2).unit = s.unit + 1 := by
  cases l with
  | none => rfl
  | some t =>
    cases t with
    | mk b => cases b <;> rfl

lemma validate_layer_cb_fallback_mono (l : Option LayerTexture)
    (s : ValidateLayerState) (k : Nat)
    (h : s.fallbackLayers.testBit k = true) :
    ((validate_layer_cb l s).2).fallbackLayers.testBit k = true := by
  cases l with
  | none => exact h
  | some t =>
    cases t with
    | mk b =>
      cases b
      · show (s.fallbackLayers ||| (1 <<< s.unit)).testBit k = true
        rw [Nat.testBit_lor, h]
        rfl
      · exact h

lemma validate_layer_cb_options_mono (l : Option LayerTexture)
    (s : ValidateLayerState)
    (h : s.optionsFlags.testBit 0 = true) :
    ((validate_layer_cb l s).2).optionsFlags.testBit 0 = true := by
  cases l with
  | none => exact h
  | some t =>
    cases t with
    | mk b =>
      cases b
      · show (s.optionsFlags ||| COGL_PIPELINE_FLUSH_FALLBACK_MASK).testBit 0 = true
        rw [Nat.testBit_lor, h]
        rfl
      · exact h

lemma validate_layers_fallback_mono (layers : List (Option LayerTexture)) :
    ∀ (s : ValidateLayerState) (k : Nat),
      s.fallbackLayers.testBit k = true →
      (validate_layers layers s).fallbackLayers.testBit k = true := by
  induction layers with
  | nil => intro s k h; exact h
  | cons l ls ih =>
    intro s k h
    exact ih _ k (validate_layer_cb_fallback_mono l s k h)

lemma validate_layers_options_mono (layers : List (Option LayerTexture)) :
    ∀ (s : ValidateLayerState),
      s.optionsFlags.testBit 0 = true →
      (validate_layers layers s).optionsFlags.testBit 0 = true := by
  induction layers with
  | nil => intro s h; exact h
  | cons l ls ih =>
    intro s h
    exact ih _ (validate_layer_cb_options_mono l s h)

lemma validate_layers_unit (layers : List (Option LayerTexture)) :
    ∀ s : ValidateLayerState,
      (validate_layers layers s).unit = s.unit + layers.length := by
  induction layers with
  | nil => intro s; rfl
  | cons l ls ih =>
    intro s
    show (validate_layers ls ((validate_layer_cb l s).2)).unit = _
    rw [ih, validate_layer_cb_unit]
    simp only [List.length_cons]
    omega

lemma validate_layers_bad_layer (layers : List (Option LayerTexture)) :
    ∀ (s : ValidateLayerState) (j : Nat) (t : LayerTexture),
      layers.get? j = some (some t) → t.canHardwareRepeat = false →
      (validate_layers layers s).fallbackLayers.testBit (s.unit + j) = true ∧
      (validate_layers layers s).optionsFlags.testBit 0 = true := by
  induction layers with
  | nil =>
    intro s j t hget _
    simp at hget
  | cons l ls ih =>
    intro s j t hget hbad
    cases j with
    | zero =>
      simp only [List.get?] at hget
      cases hget
      cases t
      cases hbad
      constructor
      · show (validate_layers ls
            ((validate_layer_cb (some ⟨false⟩) s).2)).fallbackLayers.testBit
            (s.unit + 0) = true
        apply validate_layers_fallback_mono
        show (s.fallbackLayers ||| (1 <<< s.unit)).testBit (s.unit + 0) = true
        rw [Nat.testBit_lor, Nat.add_zero, Nat.shiftLeft_eq, one_mul]
        rw [Nat.testBit_two_pow_self]
        exact Bool.or_true _
      · show (validate_layers ls
            ((validate_layer_cb (some ⟨false⟩) s).2)).optionsFlags.testBit 0 = true
        apply validate_layers_options_mono
        show (s.optionsFlags ||| COGL_PIPELINE_FLUSH_FALLBACK_MASK).testBit 0 = true
        rw [Nat.testBit_lor]
        exact Bool.or_true _
    | succ j' =>
      simp only [List.get?] at hget
      have h := ih ((validate_layer_cb l s).2) j' t hget hbad
      rw [validate_layer_cb_unit] at h
      have harith : s.unit + 1 + j' = s.unit + (j' + 1) := by omega
      rw [harith] at h
      exact h

/-- Claim C5: over any in-order sequence of pipeline layers, (a) the unit
counter increments by exactly one per layer; (b) the validator always
returns continue (TRUE); (c) a layer carrying no texture changes nothing but
the unit counter — no fallback bit, no option flag; (d) a layer whose
texture cannot be hardware-repeated gets the bit at its absolute position
(the running unit counter) set in `fallback_layers`, and the fallback-mask
override flag set in the accumulated options. -/
theorem C5_layer_validation (layers : List (Option LayerTexture))
    (s0 : ValidateLayerState) :
    ((validate_layers layers s0).unit = s0.unit + layers.length) ∧
    (∀ (l : Option LayerTexture) (s : ValidateLayerState),
      (validate_layer_cb l s).1 = true) ∧
    (∀ s : ValidateLayerState,
      (validate_layer_cb none s).2 = { s with unit := s.unit + 1 }) ∧
    (∀ (j : Nat) (t : LayerTexture),
      layers.get? j = some (some t) → t.canHardwareRepeat = false →
      (validate_layers layers s0).fallbackLayers.testBit (s0.unit + j) = true ∧
      (validate_layers layers s0).optionsFlags &&& COGL_PIPELINE_FLUSH_FALLBACK_MASK
        = COGL_PIPELINE_FLUSH_FALLBACK_MASK) := by
  refine ⟨validate_layers_unit layers s0, validate_layer_cb_fst, fun s => rfl, ?_⟩
  intro j t hget hbad
  have h := validate_layers_bad_layer layers s0 j t hget hbad
  refine ⟨h.1, ?_⟩
  show _ &&& 1 = 1
  rw [Nat.and_one_is_mod]
  have h2 := h.2
  rw [Nat.testBit_zero] at h2
  exact of_decide_eq_true h2

/-- Witness for C5_layer_validation at a concrete input: layers
[bad texture, no texture, repeatable texture, bad texture] starting from a
fresh per-draw state. -/
theorem C5_witness :
    (validate_layers [some ⟨false⟩, none, some ⟨true⟩, some ⟨false⟩]
      ⟨0, 0, 0⟩).unit = 0 + 4 ∧
    (validate_layer_cb none ⟨5, 3, 9⟩).2 =
      { unit := 6, optionsFlags := 3, fallbackLayers := 9 } ∧
    (validate_layers [some ⟨false⟩, none, some ⟨true⟩, some ⟨false⟩]
      ⟨0, 0, 0⟩).fallbackLayers.testBit (0 + 3) = true ∧
    (validate_layers [some ⟨false⟩, none, some ⟨true⟩, some ⟨false⟩]
      ⟨0, 0, 0⟩).optionsFlags &&& COGL_PIPELINE_FLUSH_FALLBACK_MASK
      = COGL_PIPELINE_FLUSH_FALLBACK_MASK := by
  have h := C5_layer_validation
    [some ⟨false⟩, none, some ⟨true⟩, some ⟨false⟩] ⟨0, 0, 0⟩
  have hb := h.2.2.2 3 ⟨false⟩ (by rfl) (by rfl)
  exact ⟨h.1, h.2.2.1 ⟨5, 3, 9⟩, hb.1, hb.2⟩

/-! ## Claim C6 -/

/-- Claim C6: the byte offset the indexed draw passes to glDrawElements is
the bound base address plus the index array's base offset plus
`element_width * first_vertex`, where the element width resolved by
`sizeof_index_type` is 1 for unsigned-byte, 2 for unsigned-short and 4 for
unsigned-int indices. -/
theorem C6_indexed_draw_offset (mode : CoglVerticesMode)
    (first_vertex n_vertices : Nat) (indices : CoglIndices)
    (attributes : List CoglVertexAttribute) (optionsFlags : Nat)
    (legacyStateSet : Bool) (h0 : PipelineHeap) (source0 : Nat) (base : Nat) :
    (GLCall.drawElements mode n_vertices (indices_gl_type indices.type)
        (base + indices.offset + sizeof_index_type indices.type * first_vertex)
      ∈ (_cogl_draw_indexed_vertex_attributes_array_real mode first_vertex
          n_vertices indices attributes optionsFlags legacyStateSet h0 source0
          base).2) ∧
    sizeof_index_type .unsignedByte = 1 ∧
    sizeof_index_type .unsignedShort = 2 ∧
    sizeof_index_type .unsignedInt = 4 := by
  refine ⟨?_, rfl, rfl, rfl⟩
  show _ ∈ _ ++ _ ++ _
  rw [List.mem_append, List.mem_append]
  exact Or.inl (Or.inr (by simp))

/-! ## Claim C9 -/

/-- Every single setter call either emits no warning and leaves the
process-wide warning state untouched, or emits exactly one warning,
starting from the never-warned state and ending in the warned state. -/
lemma apply_setter_cases (env : SetterEnv) (c : SetterCall) :
    ((apply_setter env c).warningsEmitted = env.warningsEmitted ∧
     (apply_setter env c).warn = env.warn) ∨
    ((apply_setter env c).warningsEmitted = env.warningsEmitted + 1 ∧
     env.warn.seen = false ∧ (apply_setter env c).warn.seen = true) := by
  have key : ∀ a : CoglVertexAttribute,
      let we := if a.immutable_ref ≠ 0
        then warn_about_midscene_changes env.warn else (env.warn, 0)
      (we.2 = 0 ∧ we.1 = env.warn) ∨
      (we.2 = 1 ∧ env.warn.seen = false ∧ we.1.seen = true) := by
    intro a
    by_cases hi : a.immutable_ref ≠ 0
    · rw [if_pos hi]
      unfold warn_about_midscene_changes
      by_cases hs : env.warn.seen = false
      · rw [if_pos hs]
        exact Or.inr ⟨rfl, hs, rfl⟩
      · rw [if_neg hs]
        exact Or.inl ⟨rfl, rfl⟩
    · rw [if_neg hi]
      exact Or.inl ⟨rfl, rfl⟩
  cases c with
  | setNormalized v =>
    rcases key env.attr with ⟨h1, h2⟩ | ⟨h1, h2, h3⟩
    · refine Or.inl ⟨?_, h2⟩
      show env.warningsEmitted +
        (if env.attr.immutable_ref ≠ 0 then warn_about_midscene_changes env.warn
         else (env.warn, 0)).2 = env.warningsEmitted
      rw [h1]
      omega
    · refine Or.inr ⟨?_, h2, h3⟩
      show env.warningsEmitted +
        (if env.attr.immutable_ref ≠ 0 then warn_about_midscene_changes env.warn
         else (env.warn, 0)).2 = env.warningsEmitted + 1
      rw [h1]
  | setArray arr =>
    rcases key env.attr with ⟨h1, h2⟩ | ⟨h1, h2, h3⟩
    · refine Or.inl ⟨?_, h2⟩
      show env.warningsEmitted +
        (if env.attr.immutable_ref ≠ 0 then warn_about_midscene_changes env.warn
         else (env.warn, 0)).2 = env.warningsEmitted
      rw [h1]
      omega
    · refine Or.inr ⟨?_, h2, h3⟩
      show env.warningsEmitted +
        (if env.attr.immutable_ref ≠ 0 then warn_about_midscene_changes env.warn
         else (env.warn, 0)).2 = env.warningsEmitted + 1
      rw [h1]

/-- Once the process-wide flag is in the warned state, no further setter
call emits a warning and the flag never resets. -/
lemma run_setters_seen_true (calls : List SetterCall) :
    ∀ env : SetterEnv, env.warn.seen = true →
      (run_setters calls env).warningsEmitted = env.warningsEmitted ∧
      (run_setters calls env).warn.seen = true := by
  induction calls with
  | nil => intro env h; exact ⟨rfl, h⟩
  | cons c cs ih =>
    intro env h
    show (run_setters cs (apply_setter env c)).warningsEmitted = _ ∧ _
    rcases apply_setter_cases env c with ⟨h1, h2⟩ | ⟨_, h2, _⟩
    · have := ih (apply_setter env c) (by rw [h2]; exact h)
      rw [this.1, h1]
      exact ⟨rfl, this.2⟩
    · rw [h] at h2
      cases h2

/-- Across any sequence of setter calls the total number of warnings
emitted grows by at most one, and only from the never-warned state. -/
lemma run_setters_emitted_le (calls : List SetterCall) :
    ∀ env : SetterEnv,
      (run_setters calls env).warningsEmitted ≤
        env.warningsEmitted + (if env.warn.seen = false then 1 else 0) := by
  induction calls with
  | nil => intro env; exact Nat.le_add_right _ _
  | cons c cs ih =>
    intro env
    show (run_setters cs (apply_setter env c)).warningsEmitted ≤ _
    rcases apply_setter_cases env c with ⟨h1, h2⟩ | ⟨h1, h2, h3⟩
    · have := ih (apply_setter env c)
      rw [h1, h2] at this
      exact this
    · have := ih (apply_setter env c)
      rw [h1, h3] at this
      simp only [Bool.true_eq_false, if_false] at this
      rw [if_pos h2]
      omega

/-- Claim C9: both setters apply the requested mutation unconditionally
(whatever the `immutable_ref` counter and warning state are), and across any
whole sequence of setter calls starting from the never-warned process state
at most one mid-scene-modification warning is emitted; once the warned state
is entered no further call emits, i.e. the state never resets. -/
theorem C9_setters_warn_once :
    (∀ (a : CoglVertexAttribute) (v : Bool) (w : MidsceneWarnState),
      (cogl_vertex_attribute_set_normalized a v w).attr.normalized = v) ∧
    (∀ (a : CoglVertexAttribute) (arr : Nat) (w : MidsceneWarnState)
        (refs : Nat → Nat),
      (cogl_vertex_attribute_set_array a arr w refs).attr.array = arr) ∧
    (∀ (calls : List SetterCall) (env : SetterEnv),
      env.warn.seen = false → env.warningsEmitted = 0 →
      (run_setters calls env).warningsEmitted ≤ 1) ∧
    (∀ (calls : List SetterCall) (env : SetterEnv),
      env.warn.seen = true →
      (run_setters calls env).warningsEmitted = env.warningsEmitted ∧
      (run_setters calls env).warn.seen = true) := by
  refine ⟨fun a v w => rfl, fun a arr w refs => rfl, ?_, run_setters_seen_true⟩
  intro calls env hseen hzero
  have := run_setters_emitted_le calls env
  rw [hzero, if_pos hseen] at this
  exact this

/-- An attribute pinned by two outstanding immutable references. -/
def pinned_attr_example : CoglVertexAttribute :=
  { array := 7, name := "foo", stride := 16, offset := 0, n_components := 3,
    type := 10, name_id := .customArray, normalized := false,
    texture_unit := 0, immutable_ref := 2 }

/-- Witness for C9_setters_warn_once: three mutations of a pinned attribute
starting from the never-warned state. -/
theorem C9_witness :
    (cogl_vertex_attribute_set_normalized pinned_attr_example true
      ⟨false⟩).attr.normalized = true ∧
    (cogl_vertex_attribute_set_array pinned_attr_example 9 ⟨false⟩
      (fun _ => 1)).attr.array = 9 ∧
    (run_setters [.setNormalized true, .setArray 9, .setNormalized false]
      { attr := pinned_attr_example, warn := ⟨false⟩, refs := fun _ => 1,
        warningsEmitted := 0 }).warningsEmitted ≤ 1 := by
  have h := C9_setters_warn_once
  exact ⟨h.1 pinned_attr_example true ⟨false⟩,
         h.2.1 pinned_attr_example 9 ⟨false⟩ (fun _ => 1),
         h.2.2.1 [.setNormalized true, .setArray 9, .setNormalized false]
           { attr := pinned_attr_example, warn := ⟨false⟩, refs := fun _ => 1,
             warningsEmitted := 0 } rfl rfl⟩

/-! ## Claim C10 -/

/-- Claim C10: setting an attribute's array to the array it already
references acquires the new reference before releasing the old one, so with
at least one outstanding reference the count goes c → c+1 → c: it is at
least 1 immediately after the acquire, the net effect on the count is zero,
and the attribute ends up referencing the same, still-live array. -/
theorem C10_set_array_self_safe (a : CoglVertexAttribute)
    (w : MidsceneWarnState) (refs : Nat → Nat) (h : 1 ≤ refs a.array) :
    (1 ≤ cogl_object_ref refs a.array a.array) ∧
    ((cogl_vertex_attribute_set_array a a.array w refs).refs a.array
      = refs a.array) ∧
    ((cogl_vertex_attribute_set_array a a.array w refs).attr.array
      = a.array) ∧
    (1 ≤ (cogl_vertex_attribute_set_array a a.array w refs).refs
        ((cogl_vertex_attribute_set_array a a.array w refs).attr.array)) := by
  have href : cogl_object_ref refs a.array a.array = refs a.array + 1 := by
    unfold cogl_object_ref
    rw [Function.update_same]
  have hnet : (cogl_vertex_attribute_set_array a a.array w refs).refs a.array
      = refs a.array := by
    show cogl_object_unref (cogl_object_ref refs a.array) a.array a.array = _
    unfold cogl_object_unref
    rw [Function.update_same, href]
    omega
  refine ⟨by rw [href]; omega, hnet, rfl, ?_⟩
  show 1 ≤ (cogl_vertex_attribute_set_array a a.array w refs).refs a.array
  rw [hnet]
  exact h

/-- Witness for C10_set_array_self_safe: self-assignment of a live array. -/
theorem C10_witness :
    (1 ≤ cogl_object_ref (fun _ => 1) custom_attr_example1.array
        custom_attr_example1.array) ∧
    ((cogl_vertex_attribute_set_array custom_attr_example1
        custom_attr_example1.array ⟨false⟩ (fun _ => 1)).refs
        custom_attr_example1.array = 1) ∧
    ((cogl_vertex_attribute_set_array custom_attr_example1
        custom_attr_example1.array ⟨false⟩ (fun _ => 1)).attr.array
      = custom_attr_example1.array) := by
  have h := C10_set_array_self_safe custom_attr_example1 ⟨false⟩
    (fun _ => 1) (Nat.le_refl 1)
  exact ⟨h.1, h.2.1, h.2.2.1⟩

/-! ## Claims C3 and C4: copy-on-write blend derivation in `enable_gl_state` -/

/-- Attributes of every role except COLOR leave the pipeline heap, the
current source pipeline and the derived-copy slot untouched. -/
lemma process_attribute_non_color (acc : EnableAcc) (a : CoglVertexAttribute)
    (h : a.name_id ≠ .colorArray) :
    (process_attribute acc a).heap = acc.heap ∧
    (process_attribute acc a).source = acc.source ∧
    (process_attribute acc a).copy = acc.copy := by
  rcases a with ⟨arr, nm, st, off, nc, ty, nid, nor, tu, ir⟩
  cases nid <;> first
    | exact ⟨rfl, rfl, rfl⟩
    | exact absurd rfl h

/-- A COLOR attribute met while the source pipeline already has real
blending enabled derives no copy and changes no pipeline state. -/
lemma process_attribute_color_true (acc : EnableAcc) (a : CoglVertexAttribute)
    (hc : a.name_id = .colorArray)
    (hb : acc.heap.blend acc.source = true) :
    (process_attribute acc a).heap = acc.heap ∧
    (process_attribute acc a).source = acc.source ∧
    (process_attribute acc a).copy = acc.copy := by
  rcases a with ⟨arr, nm, st, off, nc, ty, nid, nor, tu, ir⟩
  cases nid with
  | colorArray =>
    simp only [process_attribute, hb]
    exact ⟨rfl, rfl, rfl⟩
  | positionArray => exact absurd hc (by simp)
  | textureCoordArray => exact absurd hc (by simp)
  | normalArray => exact absurd hc (by simp)
  | customArray => exact absurd hc (by simp)

/-- A COLOR attribute met while the source pipeline has real blending
disabled derives a fresh copy with blending forced on and makes it the
source; pipeline state of every other object is preserved. -/
lemma process_attribute_color_false (acc : EnableAcc) (a : CoglVertexAttribute)
    (hc : a.name_id = .colorArray)
    (hb : acc.heap.blend acc.source = false) :
    (process_attribute acc a).source = acc.heap.next ∧
    (process_attribute acc a).copy = some acc.heap.next ∧
    (process_attribute acc a).heap.next = acc.heap.next + 1 ∧
    (process_attribute acc a).heap.blend acc.heap.next = true ∧
    (∀ id, id ≠ acc.heap.next →
      (process_attribute acc a).heap.blend id = acc.heap.blend id) := by
  rcases a with ⟨arr, nm, st, off, nc, ty, nid, nor, tu, ir⟩
  cases nid with
  | colorArray =>
    simp only [process_attribute, hb, cogl_pipeline_copy,
      cogl_pipeline_set_blend_enabled, if_true]
    refine ⟨trivial, trivial, trivial, ?_, ?_⟩
    · rw [Function.update_same]
    · intro id hid
      rw [Function.update_noteq hid, Function.update_noteq hid]
  | positionArray => exact absurd hc (by simp)
  | textureCoordArray => exact absurd hc (by simp)
  | normalArray => exact absurd hc (by simp)
  | customArray => exact absurd hc (by simp)

/-- Any attribute met while the source pipeline has real blending enabled
leaves heap, source and copy untouched. -/
lemma process_attribute_stable (acc : EnableAcc) (a : CoglVertexAttribute)
    (hb : acc.heap.blend acc.source = true) :
    (process_attribute acc a).heap = acc.heap ∧
    (process_attribute acc a).source = acc.source ∧
    (process_attribute acc a).copy = acc.copy := by
  by_cases hc : a.name_id = .colorArray
  · exact process_attribute_color_true acc a hc hb
  · exact process_attribute_non_color acc a hc

/-- Once the current source pipeline has real blending enabled, the whole
attribute loop leaves heap, source and copy untouched. -/
lemma foldl_process_stable (attrs : List CoglVertexAttribute) :
    ∀ acc : EnableAcc, acc.heap.blend acc.source = true →
      (attrs.foldl process_attribute acc).heap = acc.heap ∧
      (attrs.foldl process_attribute acc).source = acc.source ∧
      (attrs.foldl process_attribute acc).copy = acc.copy := by
  induction attrs with
  | nil => intro acc _; exact ⟨rfl, rfl, rfl⟩
  | cons a as ih =>
    intro acc hb
    simp only [List.foldl_cons]
    obtain ⟨h1, h2, h3⟩ := process_attribute_stable acc a hb
    obtain ⟨g1, g2, g3⟩ := ih (process_attribute acc a) (by rw [h1, h2]; exact hb)
    exact ⟨by rw [g1, h1], by rw [g2, h2], by rw [g3, h3]⟩

/-- If the attribute loop starts with real blending disabled on the source
and the set contains a COLOR attribute, it ends with a derived source
pipeline whose blend flag is true: the final source is a fresh object
(id at least the initial allocation bound), the blend flags of all
previously existing pipelines are untouched, and the copy slot is filled. -/
lemma foldl_process_colored (attrs : List CoglVertexAttribute) :
    ∀ acc : EnableAcc, acc.heap.blend acc.source = false →
      (∃ a ∈ attrs, a.name_id = .colorArray) →
      ((attrs.foldl process_attribute acc).heap.blend
        (attrs.foldl process_attribute acc).source = true) ∧
      acc.heap.next ≤ (attrs.foldl process_attribute acc).source ∧
      (∀ id, id < acc.heap.next →
        (attrs.foldl process_attribute acc).heap.blend id
          = acc.heap.blend id) ∧
      ((attrs.foldl process_attribute acc).copy.isSome = true) := by
  induction attrs with
  | nil =>
    intro acc _ hex
    simp at hex
  | cons a as ih =>
    intro acc hb hex
    simp only [List.foldl_cons]
    by_cases hc : a.name_id = .colorArray
    · obtain ⟨hs, hcp, hnx, hbt, hpres⟩ := process_attribute_color_false acc a hc hb
      obtain ⟨g1, g2, g3⟩ := foldl_process_stable as (process_attribute acc a)
        (by rw [hs]; exact hbt)
      refine ⟨?_, ?_, ?_, ?_⟩
      · rw [g1, g2, hs]
        exact hbt
      · rw [g2, hs]
      · intro id hid
        rw [g1]
        exact hpres id (by omega)
      · rw [g3, hcp]
        rfl
    · obtain ⟨h1, h2, h3⟩ := process_attribute_non_color acc a hc
      have hex' : ∃ x ∈ as, x.name_id = .colorArray := by
        rcases hex with ⟨x, hx, hxc⟩
        rcases List.mem_cons.mp hx with rfl | hx'
        · exact absurd hxc hc
        · exact ⟨x, hx', hxc⟩
      obtain ⟨g1, g2, g3, g4⟩ := ih (process_attribute acc a)
        (by rw [h1, h2]; exact hb) hex'
      rw [h1] at g2
      refine ⟨g1, g2, ?_, g4⟩
      intro id hid
      have hpc := g3 id (by rw [h1]; exact hid)
      rw [h1] at hpc
      exact hpc

/-- The override phase is a no-op once a derived copy already exists. -/
lemma apply_overrides_phase_copy_some (optionsFlags : Nat) (acc : EnableAcc)
    (h : acc.copy.isSome = true) :
    apply_overrides_phase optionsFlags acc = acc := by
  obtain ⟨c, hc⟩ := Option.isSome_iff_exists.mp h
  unfold apply_overrides_phase
  by_cases hf : optionsFlags ≠ 0
  · rw [if_pos hf, hc]
  · rw [if_neg hf]

/-- The legacy phase is a no-op once a derived copy already exists. -/
lemma apply_legacy_phase_copy_some (legacyStateSet : Bool) (acc : EnableAcc)
    (h : acc.copy.isSome = true) :
    apply_legacy_phase legacyStateSet acc = acc := by
  obtain ⟨c, hc⟩ := Option.isSome_iff_exists.mp h
  unfold apply_legacy_phase
  by_cases hf : legacyStateSet
  · rw [if_pos hf, hc]
  · rw [if_neg hf]

/-- Claim C3: a draw whose active pipeline has real blending disabled and
whose attribute set contains a COLOR-role attribute makes `enable_gl_state`
return a pipeline that is not identity-equal to the pipeline active before
the call, with its blend-enabled flag true, while the original pipeline's
blend flag is unchanged (still disabled). The hypothesis `src0 < h0.next`
says the active pipeline is an already-allocated object. -/
theorem C3_color_forces_blend_copy (attrs : List CoglVertexAttribute)
    (optionsFlags : Nat) (legacyStateSet : Bool) (h0 : PipelineHeap)
    (src0 : Nat) (hsrc : src0 < h0.next) (hb : h0.blend src0 = false)
    (hex : ∃ a ∈ attrs, a.name_id = .colorArray) :
    ((enable_gl_state attrs optionsFlags legacyStateSet h0 src0).source
      ≠ src0) ∧
    ((enable_gl_state attrs optionsFlags legacyStateSet h0 src0).heap.blend
      (enable_gl_state attrs optionsFlags legacyStateSet h0 src0).source
      = true) ∧
    ((enable_gl_state attrs optionsFlags legacyStateSet h0 src0).heap.blend
      src0 = false) := by
  obtain ⟨g1, g2, g3, g4⟩ := foldl_process_colored attrs
    { heap := h0, source := src0, copy := none, genericIndex := 0,
      skipGlColor := false, enableFlags := 0, tempBitmask := 0, trace := [] }
    hb hex
  have henable : enable_gl_state attrs optionsFlags legacyStateSet h0 src0 =
      attrs.foldl process_attribute
        { heap := h0, source := src0, copy := none, genericIndex := 0,
          skipGlColor := false, enableFlags := 0, tempBitmask := 0,
          trace := [] } := by
    show apply_legacy_phase _ (apply_overrides_phase _ _) = _
    rw [apply_overrides_phase_copy_some _ _ g4, apply_legacy_phase_copy_some _ _ g4]
  rw [henable]
  have g2a : h0.next ≤ (attrs.foldl process_attribute
      { heap := h0, source := src0, copy := none, genericIndex := 0,
        skipGlColor := false, enableFlags := 0, tempBitmask := 0,
        trace := [] }).source := g2
  have g3a : (attrs.foldl process_attribute
      { heap := h0, source := src0, copy := none, genericIndex := 0,
        skipGlColor := false, enableFlags := 0, tempBitmask := 0,
        trace := [] }).heap.blend src0 = h0.blend src0 := g3 src0 hsrc
  refine ⟨?_, g1, ?_⟩
  · intro heq
    rw [heq] at g2a
    omega
  · rw [g3a]
    exact hb

/-- Witness for C3_color_forces_blend_copy: a single color attribute drawn
with a blending-disabled pipeline (id 0) as the active source. -/
theorem C3_witness :
    ((enable_gl_state [color_attr_example] 0 false
        ⟨fun _ => false, 1⟩ 0).source ≠ 0) ∧
    ((enable_gl_state [color_attr_example] 0 false
        ⟨fun _ => false, 1⟩ 0).heap.blend
      (enable_gl_state [color_attr_example] 0 false
        ⟨fun _ => false, 1⟩ 0).source = true) ∧
    ((enable_gl_state [color_attr_example] 0 false
        ⟨fun _ => false, 1⟩ 0).heap.blend 0 = false) := by
  exact C3_color_forces_blend_copy [color_attr_example] 0 false
    ⟨fun _ => false, 1⟩ 0 (by decide) rfl
    ⟨color_attr_example, List.Mem.head _, rfl⟩

/-- Claim C4: a draw whose active pipeline already has real blending
enabled and whose attribute set contains a COLOR-role attribute makes
`enable_gl_state` derive no pipeline copy and return the input pipeline
itself, provided no validator-driven override flag is pending
(`optionsFlags = 0`) and the legacy/global per-context override state is
clear (`legacyStateSet = false`); the whole pipeline heap is untouched. -/
theorem C4_blend_enabled_no_copy (attrs : List CoglVertexAttribute)
    (h0 : PipelineHeap) (src0 : Nat) (hb : h0.blend src0 = true)
    (_hex : ∃ a ∈ attrs, a.name_id = .colorArray) :
    ((enable_gl_state attrs 0 false h0 src0).source = src0) ∧
    ((enable_gl_state attrs 0 false h0 src0).copy = none) ∧
    ((enable_gl_state attrs 0 false h0 src0).heap = h0) := by
  obtain ⟨g1, g2, g3⟩ := foldl_process_stable attrs
    { heap := h0, source := src0, copy := none, genericIndex := 0,
      skipGlColor := false, enableFlags := 0, tempBitmask := 0, trace := [] }
    hb
  have henable : enable_gl_state attrs 0 false h0 src0 =
      attrs.foldl process_attribute
        { heap := h0, source := src0, copy := none, genericIndex := 0,
          skipGlColor := false, enableFlags := 0, tempBitmask := 0,
          trace := [] } := rfl
  rw [henable]
  exact ⟨g2, g3, g1⟩

/-- Witness for C4_blend_enabled_no_copy: a single color attribute drawn
with a blending-enabled pipeline (id 0) as the active source. -/
theorem C4_witness :
    ((enable_gl_state [color_attr_example] 0 false
        ⟨fun _ => true, 1⟩ 0).source = 0) ∧
    ((enable_gl_state [color_attr_example] 0 false
        ⟨fun _ => true, 1⟩ 0).copy = none) ∧
    ((enable_gl_state [color_attr_example] 0 false
        ⟨fun _ => true, 1⟩ 0).heap = ⟨fun _ => true, 1⟩) := by
  exact C4_blend_enabled_no_copy [color_attr_example]
    ⟨fun _ => true, 1⟩ 0 rfl ⟨color_attr_example, List.Mem.head _, rfl⟩

end CoglVertexAttr
